import Mathlib

/-!
Shallow embedding of the mahi-fes wire protocol and Stimulator façade.

The embedding follows the C++ sources:
  * `src/unnamed/part_001` — the checksum/framing codec
    (`checksum`, `int_to_twobytes`, `write_message`);
  * `src/src/Mahi/Fes/Core/Stimulator.cpp` — the current `mahi::fes::Stimulator`;
  * `src/src/FES/Core/Stimulator.cpp` — the legacy `fes::Stimulator`;
  * `src/include/Mahi/Fes/Core/Scheduler.hpp` — the `Scheduler` interface.

The OS serial transport and the logging sink are the external collaborators
described by the spec; they are modelled as explicit state (`Transport`, `Env`)
with oracle outcomes for each write/read.  Implementation files absent from the
snapshot (`Scheduler.cpp`, `Channel.cpp`, `Communication.cpp`) are modelled
from the spec; each such definition carries a doc comment saying so.
-/

namespace MahiFes

/-- Log levels of the external logging collaborator (`LOG(Info)` / `LOG(Error)`). -/
inductive LogLevel where
  | Info : LogLevel
  | Error : LogLevel
deriving DecidableEq, Repr

/-- State of the external serial-transport collaborator.  Writes and reads are
blocking calls whose outcomes are supplied by oracles: `writeResults` lists the
outcome of each successive `WriteFile` call (exhausted list means success),
`reads` lists the outcome of each successive one-byte `ReadFile` call
(`none` = zero bytes within the timeout), and `incomingMsgs` lists the payloads
of the framed replies delivered by the message-reading layer (an empty payload
means no reply arrived within the timeout). -/
structure Transport where
  isOpen : Bool
  configured : Bool
  written : List (List Nat)
  writeResults : List Bool
  reads : List (Option Nat)
  incomingMsgs : List (List Nat)
deriving DecidableEq, Repr

/-- The world surrounding a Stimulator: the transport handle state, the oracle
outcomes of `CreateFileW` (`openOk`) and of the serial-configuration calls
(`configOk`), and the log sink. -/
structure Env where
  transport : Transport
  openOk : Bool
  configOk : Bool
  log : List (LogLevel × String)
deriving DecidableEq, Repr

/-- Append an `Error` line to the log sink. -/
def logErr (e : Env) (msg : String) : Env :=
  { e with log := e.log ++ [(LogLevel.Error, msg)] }

/-- Append an `Info` line to the log sink. -/
def logInfo (e : Env) (msg : String) : Env :=
  { e with log := e.log ++ [(LogLevel.Info, msg)] }

/-- One `WriteFile` call: the frame is handed to the driver unconditionally and
the call's outcome is the next oracle entry (success when exhausted). -/
def transportWrite (frame : List Nat) (e : Env) : Bool × Env :=
  (e.transport.writeResults.headD true,
   { e with transport :=
      { e.transport with
        written := e.transport.written ++ [frame],
        writeResults := e.transport.writeResults.tail } })

/-- `checksum` from `part_001`: sum every byte of the buffer except the last
(the checksum slot itself), fold the carry byte into the low byte, and invert. -/
def checksum (myarray : List Nat) : Nat :=
  let csum := myarray.dropLast.sum
  ((0x00FF &&& csum) + (csum >>> 8)) ^^^ 0xFF

/-- C++ conversion of an `int` to `unsigned char`: reduction modulo 256. -/
def toUChar (x : Int) : Nat := (x % 256).toNat

/-- `int_to_twobytes` from `part_001`: big-endian split of an `int` into two
bytes via truncating division and remainder by 256 (C++ `/` and `%`), each
result then converted to `unsigned char`. -/
def int_to_twobytes (input_int : Int) : List Nat :=
  let byte_size : Int := 256
  [toUChar (input_int.tdiv byte_size), toUChar (input_int.tmod byte_size)]

/-- The buffer actually handed to `WriteFile` by `write_message`: the original
message with its last byte overwritten by the computed checksum byte. -/
def withChecksum (message : List Nat) : List Nat :=
  message.dropLast ++ [checksum message % 256]

/-- Log line emitted by `write_message` after the `WriteFile` call: nothing
when the activity string is `"NONE"`, otherwise an `Info` line on success and
an `Error` line on failure. -/
def writeLog (activity : String) (ok : Bool) (e : Env) : Env :=
  if activity = "NONE" then e
  else if ok then logInfo e (activity ++ " was Successful.")
  else logErr e ("Error " ++ activity)

/-- `write_message` from `part_001`: overwrite the final byte of the buffer
with the checksum, call `WriteFile`, log the outcome (unless the activity
string is `"NONE"`), and return false exactly when the write failed.  The
returned triple is (buffer as transmitted, returned bool, resulting world). -/
def write_message (message : List Nat) (activity : String) (e : Env) :
    List Nat × Bool × Env :=
  (withChecksum message,
   e.transport.writeResults.headD true,
   writeLog activity (e.transport.writeResults.headD true)
     (transportWrite (withChecksum message) e).2)

/-- Logging touches only the log sink, never the transport state. -/
theorem writeLog_transport (activity : String) (ok : Bool) (e : Env) :
    (writeLog activity ok e).transport = e.transport := by
  unfold writeLog logInfo logErr
  split
  · rfl
  · split <;> rfl

/-- Claim C2: recomputing the checksum over a frame whose final byte has been
overwritten with the computed checksum reproduces the same checksum, because
the final byte is excluded from the sum.  Stated both for the raw buffer
rewrite (`withChecksum`) and for the buffer `write_message` transmits. -/
theorem checksum_recompute_idempotent (message : List Nat) (activity : String)
    (e : Env) :
    checksum (withChecksum message) = checksum message ∧
    checksum (write_message message activity e).1 = checksum message := by
  have hdrop : (withChecksum message).dropLast = message.dropLast := by
    unfold withChecksum
    exact List.dropLast_concat
  have h1 : checksum (withChecksum message) = checksum message := by
    unfold checksum
    rw [hdrop]
  exact ⟨h1, h1⟩

/-- Claim C2 witness at a concrete frame. -/
theorem checksum_recompute_idempotent_witness :
    checksum (withChecksum [0x04, 0x80, 0x03, 0x01, 0x7E, 0x00]) =
      checksum [0x04, 0x80, 0x03, 0x01, 0x7E, 0x00] :=
  (checksum_recompute_idempotent [0x04, 0x80, 0x03, 0x01, 0x7E, 0x00] "NONE"
    { transport := ⟨false, false, [], [], [], []⟩, openOk := true,
      configOk := true, log := [] }).1

/-- Claim C3: `write_message` overwrites the last byte of the buffer with the
computed checksum before the transport write, returns false iff the transport
write fails, and hands the checksummed buffer to the transport even when the
write fails (the frame is recorded among the attempted writes either way). -/
theorem write_message_spec (message : List Nat) (activity : String) (e : Env)
    (hm : message ≠ []) :
    ((write_message message activity e).1 =
        message.dropLast ++ [checksum message % 256]) ∧
    ((write_message message activity e).1.getLast? =
        some (checksum message % 256)) ∧
    ((write_message message activity e).1.length = message.length) ∧
    ((write_message message activity e).2.1 = false ↔
        e.transport.writeResults.headD true = false) ∧
    ((write_message message activity e).2.2.transport.written =
        e.transport.written ++ [withChecksum message]) := by
  refine ⟨rfl, ?_, ?_, Iff.rfl, ?_⟩
  · unfold write_message withChecksum
    simp
  · unfold write_message withChecksum
    have hpos : 0 < message.length := List.length_pos.mpr hm
    simp
    omega
  · show (writeLog activity _ (transportWrite (withChecksum message) e).2).transport.written = _
    rw [writeLog_transport]
    rfl

/-- Claim C3 witness: a concrete frame written through a transport whose next
write fails; the buffer still carries the checksum byte. -/
theorem write_message_spec_witness :
    ([0x04, 0x80, 0x03, 0x01, 0x7E, 0x00] : List Nat) ≠ [] ∧
    (write_message [0x04, 0x80, 0x03, 0x01, 0x7E, 0x00] "Test"
      { transport := ⟨true, true, [], [false], [], []⟩, openOk := true,
        configOk := true, log := [] }).2.1 = false :=
  ⟨by decide,
   (write_message_spec [0x04, 0x80, 0x03, 0x01, 0x7E, 0x00] "Test"
      { transport := ⟨true, true, [], [false], [], []⟩, openOk := true,
        configOk := true, log := [] } (by decide)).2.2.2.1.mpr (by decide)⟩

/-- Claim C8: on inputs 0..65535, `int_to_twobytes` is the big-endian pair
(n / 256, n % 256); the three concrete values of the spec hold; inputs above
65535 wrap through the `unsigned char` conversion without any bounds check. -/
theorem int_to_twobytes_spec :
    (∀ n : Nat, n ≤ 65535 →
      int_to_twobytes (n : Int) = [n / 256, n % 256]) ∧
    int_to_twobytes 300 = [1, 44] ∧
    int_to_twobytes 0 = [0, 0] ∧
    int_to_twobytes 65535 = [255, 255] ∧
    int_to_twobytes 70000 = [17, 112] := by
  refine ⟨?_, by decide, by decide, by decide, by decide⟩
  intro n hn
  show [(n / 256) % 256, (n % 256) % 256] = [n / 256, n % 256]
  have hd256 : n / 256 < 256 := by omega
  have h1 : (n / 256) % 256 = n / 256 := Nat.mod_eq_of_lt hd256
  have h2 : (n % 256) % 256 = n % 256 :=
    Nat.mod_eq_of_lt (Nat.mod_lt _ (by norm_num))
  rw [h1, h2]

/-- Claim C8 witness: the general in-range equation applied at 300. -/
theorem int_to_twobytes_spec_witness :
    int_to_twobytes ((300 : Nat) : Int) = [300 / 256, 300 % 256] :=
  int_to_twobytes_spec.1 300 (by norm_num)

/-- A stimulation channel (data model of `Channel.hpp`/spec §3): port/channel
index, human-readable name, max amplitude, max pulse width, interphase delay,
aspect ratio and anode/cathode pairing. -/
structure Channel where
  channel_num : Nat
  channel_name : String
  max_amplitude : Nat
  max_pulse_width : Nat
  ip_delay : Nat
  aspect_ratio : Nat
  an_ca_nums : Nat
deriving DecidableEq, Repr

instance : Inhabited Channel :=
  ⟨⟨0, "", 0, 0, 0, 0, 0⟩⟩

/-- Accessor `Channel::get_channel_name`. -/
def Channel.get_channel_name (c : Channel) : String := c.channel_name

/-- Accessor `Channel::get_max_amplitude`. -/
def Channel.get_max_amplitude (c : Channel) : Nat := c.max_amplitude

/-- Accessor `Channel::get_max_pulse_width`. -/
def Channel.get_max_pulse_width (c : Channel) : Nat := c.max_pulse_width

/-- Mutator `Channel::set_max_amplitude`. -/
def Channel.set_max_amplitude (c : Channel) (m : Nat) : Channel :=
  { c with max_amplitude := m }

/-- Mutator `Channel::set_max_pulse_width`. -/
def Channel.set_max_pulse_width (c : Channel) (m : Nat) : Channel :=
  { c with max_pulse_width := m }

/-- Message-type byte of a channel-setup frame.  The exact value is not fixed
by the sources in the snapshot or by the spec; no claim depends on it. -/
def CHANNEL_SETUP_MSG : Nat := 0x47

/-- Message-type byte of a create-scheduler frame (value not fixed by the
available sources; no claim depends on it). -/
def CREATE_SCHEDULE_MSG : Nat := 0x10

/-- Message-type byte of an add-event frame (value not fixed by the available
sources; no claim depends on it). -/
def CREATE_EVENT_MSG : Nat := 0x15

/-- Message-type byte of an event-parameter-update frame (value not fixed by
the available sources; no claim depends on it). -/
def CHANGE_EVENT_PARAMS_MSG : Nat := 0x19

/-- Message-type byte of a sync frame (value not fixed by the available
sources; no claim depends on it). -/
def SYNC_MSG : Nat := 0x1B

/-- `STIM_EVENT` from `Scheduler.hpp`: the event-type tag of a live
stimulation event. -/
def STIM_EVENT : Nat := 0x03

/-- Modelled from the spec (§4.2, §6; `Channel.cpp` is not in the snapshot):
the channel-setup frame `[0x04, 0x80, msg_type, msg_length, payload...,
checksum slot]` whose payload is the port/channel byte, amplitude limit,
pulse-width limit, 2-byte interphase delay, aspect-ratio byte and
anode/cathode byte. -/
def Channel.setup_frame (c : Channel) : List Nat :=
  [0x04, 0x80, CHANNEL_SETUP_MSG, 7, c.channel_num, c.max_amplitude,
   c.max_pulse_width] ++ int_to_twobytes (c.ip_delay : Int) ++
  [c.aspect_ratio, c.an_ca_nums, 0x00]

/-- Modelled from the spec (§4.2; `Channel.cpp` is not in the snapshot):
`Channel::setup_channel` builds the setup frame, sends it through
`write_message`, blocks for the setup delay (time is not modelled), and
propagates false exactly when the write fails. -/
def Channel.setup_channel (c : Channel) (e : Env) : Bool × Env :=
  let r := write_message c.setup_frame (c.channel_name ++ " setup") e
  (r.2.1, r.2.2)

/-- A scheduled stimulation event (data model of `Event.hpp`/spec §3):
device-assigned event id, bound channel, current amplitude and pulse width,
and the event-type tag. -/
structure Event where
  event_id : Nat
  channel : Channel
  amplitude : Nat
  pulse_width : Nat
  event_type : Nat
deriving DecidableEq, Repr

/-- The device-side scheduler proxy, with the fields of `Scheduler.hpp`:
device-assigned id, ordered event list, enabled flag and sync byte (the raw
serial handle lives in `Env`). -/
structure Scheduler where
  m_id : Nat
  m_events : List Event
  m_enabled : Bool
  m_sync_char : Nat
deriving DecidableEq, Repr

/-- The `Scheduler()` constructor state: no id assigned yet, no events,
disabled. -/
def Scheduler.init : Scheduler :=
  { m_id := 0, m_events := [], m_enabled := false, m_sync_char := 0 }

/-- `Scheduler::get_id`. -/
def Scheduler.get_id (sch : Scheduler) : Nat := sch.m_id

/-- `Scheduler::set_id`. -/
def Scheduler.set_id (sch : Scheduler) (sched_id : Nat) : Scheduler :=
  { sch with m_id := sched_id }

/-- `Scheduler::get_num_events`. -/
def Scheduler.get_num_events (sch : Scheduler) : Nat := sch.m_events.length

/-- `Scheduler::disable` (spec §4.4.7): unconditionally mark the scheduler
disabled without transmitting anything. -/
def Scheduler.disable (sch : Scheduler) : Scheduler :=
  { sch with m_enabled := false }

/-- Modelled from the spec (§4.4.1; `Scheduler.cpp` is not in the snapshot):
the create-scheduler frame carrying the sync byte and the 2-byte period. -/
def createSchedFrame (sync_msg duration : Nat) : List Nat :=
  [0x04, 0x80, CREATE_SCHEDULE_MSG, 3, sync_msg] ++
  int_to_twobytes (duration : Int) ++ [0x00]

/-- Modelled from the spec (§4.4.1; `Scheduler.cpp` is not in the snapshot):
`Scheduler::create_scheduler` sends the create-scheduler frame, registers the
sync byte, blocks for the setup delay (not modelled), and returns the write
outcome.  The scheduler id is not assigned here: the caller must read the
reply and call `set_id`. -/
def Scheduler.create_scheduler (sch : Scheduler) (sync_msg duration : Nat)
    (e : Env) : Bool × Scheduler × Env :=
  let r := write_message (createSchedFrame sync_msg duration)
    "Creating Scheduler" e
  (r.2.1, { sch with m_sync_char := sync_msg }, r.2.2)

/-- Modelled from the spec (§4.4.2; `Scheduler.cpp` is not in the snapshot):
the add-event frame carrying the scheduler id, the channel and the event
type. -/
def addEventFrame (sched_id : Nat) (c : Channel) (event_type : Nat) :
    List Nat :=
  [0x04, 0x80, CREATE_EVENT_MSG, 3, sched_id, c.channel_num, event_type, 0x00]

/-- Modelled from the spec (§4.4.2; `Scheduler.cpp` is not in the snapshot):
`Scheduler::add_event` sends an add-event frame carrying the scheduler id,
channel and event type; on success it appends a new `Event` to the ordered
collection, tracking the device's sequential id allocation (ids follow
registration order).  On a failed write nothing is appended and false is
returned. -/
def Scheduler.add_event (sch : Scheduler) (c : Channel) (event_type : Nat)
    (e : Env) : Bool × Scheduler × Env :=
  let r := write_message (addEventFrame sch.m_id c event_type)
    "Adding Event" e
  if r.2.1 then
    (true,
     { sch with m_events :=
        sch.m_events ++ [⟨sch.m_events.length, c, 0, 0, event_type⟩] },
     r.2.2)
  else (false, sch, r.2.2)

/-- Modelled from the spec (§4.4.4; `Scheduler.cpp` is not in the snapshot):
linear scan of the event list, mutating the amplitude of the first event
bound to the given channel. -/
def setAmpEvents : List Event → Nat → Nat → List Event
  | [], _, _ => []
  | ev :: rest, cn, a =>
    if ev.channel.channel_num = cn then { ev with amplitude := a } :: rest
    else ev :: setAmpEvents rest cn a

/-- Modelled from the spec (§4.4.4; `Scheduler.cpp` is not in the snapshot):
`Scheduler::set_amp` stages a new amplitude on the first event bound to the
channel; nothing is transmitted. -/
def Scheduler.set_amp (sch : Scheduler) (c : Channel) (amplitude : Nat) :
    Scheduler :=
  { sch with m_events := setAmpEvents sch.m_events c.channel_num amplitude }

/-- Modelled from the spec (§4.4.4; `Scheduler.cpp` is not in the snapshot):
linear scan of the event list, mutating the pulse width of the first event
bound to the given channel. -/
def setPwEvents : List Event → Nat → Nat → List Event
  | [], _, _ => []
  | ev :: rest, cn, p =>
    if ev.channel.channel_num = cn then { ev with pulse_width := p } :: rest
    else ev :: setPwEvents rest cn p

/-- Modelled from the spec (§4.4.4; `Scheduler.cpp` is not in the snapshot):
`Scheduler::write_pw` stages a new pulse width on the first event bound to
the channel; nothing is transmitted. -/
def Scheduler.write_pw (sch : Scheduler) (c : Channel) (pw : Nat) :
    Scheduler :=
  { sch with m_events := setPwEvents sch.m_events c.channel_num pw }

/-- Modelled from the spec (§4.4.4; `Scheduler.cpp` is not in the snapshot):
`Scheduler::get_amp` returns the staged amplitude of the first event bound to
the given channel (0 when no event matches). -/
def getAmpEvents : List Event → Nat → Nat
  | [], _ => 0
  | ev :: rest, cn =>
    if ev.channel.channel_num = cn then ev.amplitude else getAmpEvents rest cn

/-- `Scheduler::get_amp` (see `getAmpEvents`). -/
def Scheduler.get_amp (sch : Scheduler) (c : Channel) : Nat :=
  getAmpEvents sch.m_events c.channel_num

/-- Modelled from the spec (§4.4.4; `Scheduler.cpp` is not in the snapshot):
`Scheduler::get_pw` returns the staged pulse width of the first event bound
to the given channel (0 when no event matches). -/
def getPwEvents : List Event → Nat → Nat
  | [], _ => 0
  | ev :: rest, cn =>
    if ev.channel.channel_num = cn then ev.pulse_width else getPwEvents rest cn

/-- `Scheduler::get_pw` (see `getPwEvents`). -/
def Scheduler.get_pw (sch : Scheduler) (c : Channel) : Nat :=
  getPwEvents sch.m_events c.channel_num

/-- Modelled from the spec (§4.4.5; `Scheduler.cpp` is not in the snapshot):
the command frame of one event carrying its device id, current amplitude and
current pulse width as single bytes. -/
def eventFrame (ev : Event) : List Nat :=
  [0x04, 0x80, CHANGE_EVENT_PARAMS_MSG, 3, ev.event_id % 256,
   ev.amplitude % 256, ev.pulse_width % 256, 0x00]

/-- Modelled from the spec (§4.4.5; `Scheduler.cpp` is not in the snapshot):
`Scheduler::update` transmits one command frame per event, continues after
individual failures, and returns false when any transmission failed. -/
def schedulerUpdateLoop : List Event → Env → Bool × Env
  | [], e => (true, e)
  | ev :: rest, e =>
    let r := write_message (eventFrame ev) "NONE" e
    let r' := schedulerUpdateLoop rest r.2.2
    (r.2.1 && r'.1, r'.2)

/-- `Scheduler::update` (see `schedulerUpdateLoop`). -/
def Scheduler.update (sch : Scheduler) (e : Env) : Bool × Env :=
  schedulerUpdateLoop sch.m_events e

/-- Modelled from the spec (§4.4.3; `Scheduler.cpp` is not in the snapshot):
`Scheduler::send_sync_msg` transmits the registered sync byte and marks the
scheduler enabled on success. -/
def Scheduler.send_sync_msg (sch : Scheduler) (e : Env) :
    Bool × Scheduler × Env :=
  let r := write_message [0x04, 0x80, SYNC_MSG, 1, sch.m_sync_char, 0x00]
    "Sending Sync Message" e
  if r.2.1 then (true, { sch with m_enabled := true }, r.2.2)
  else (false, sch, r.2.2)

/-- A reply frame as surfaced by the message-reading layer
(`ReadMessage::get_data` returns the payload bytes). -/
structure ReadMessage where
  data : List Nat
deriving DecidableEq, Repr

/-- `ReadMessage::get_data`. -/
def ReadMessage.get_data (m : ReadMessage) : List Nat := m.data

/-- Modelled from the spec (§1, §6; `Communication.cpp` is not in the
snapshot): `wait_for_message` reads the next framed reply from the transport
and returns its payload; when no reply arrives within the read timeout the
returned payload is empty (the spec's transport contract:
`read(max) -> bytes (possibly empty on timeout)`). -/
def wait_for_message (e : Env) : ReadMessage × Env :=
  match e.transport.incomingMsgs with
  | [] => (⟨[]⟩, e)
  | m :: rest =>
    (⟨m⟩, { e with transport := { e.transport with incomingMsgs := rest } })

/-- The `mahi::fes::Stimulator` of `src/src/Mahi/Fes/Core/Stimulator.cpp`:
name, port, enabled flag, channel list, scheduler, and the flat snapshot
arrays filled by `update` (the serial handle and mutex live outside the
structure; the mutex only guards the snapshot section and is not modelled in
this single-threaded embedding). -/
structure Stimulator where
  name : String
  com_port : String
  enabled : Bool
  channels : List Channel
  scheduler : Scheduler
  num_events : Nat
  amplitudes : List Nat
  pulsewidths : List Nat
  max_amplitudes : List Nat
  max_pulsewidths : List Nat
  channel_names : List String
deriving DecidableEq, Repr

/-- `Stimulator::is_enabled`. -/
def Stimulator.is_enabled (s : Stimulator) : Bool := s.enabled

/-- `Stimulator::open_port`: `CreateFileW` on the com port; logs and reports
the outcome (the outcome itself is the `openOk` oracle of the environment). -/
def open_port (name : String) (e : Env) : Bool × Env :=
  if e.openOk then
    (true,
     logInfo { e with transport := { e.transport with isOpen := true } }
       ("Opened Stimulator" ++ name))
  else (false, logErr e ("Failed to open Stimulator" ++ name))

/-- `Stimulator::configure_port`: applies the serial configuration (baud
9600, 8 data bits, 1 stop bit, no parity, flow control disabled, timeouts).
The outcomes of `GetCommState`/`SetCommState`/`SetCommTimeouts` are collapsed
into the single `configOk` oracle; on success the transport is marked
configured, on failure an error is logged. -/
def configure_port (e : Env) : Bool × Env :=
  if e.configOk then
    (true, { e with transport := { e.transport with configured := true } })
  else (false, logErr e "Error setting serial port state")

/-- `Stimulator::initialize_board`: calls `setup_channel` on every channel in
list order, stopping at the first failure; logs an `Info` line when all
channels were set up. -/
def initialize_board : List Channel → Env → Bool × Env
  | [], e => (true, logInfo e "Setup Completed successfully.")
  | c :: rest, e =>
    let r := c.setup_channel e
    if r.1 then initialize_board rest r.2 else (false, r.2)

/-- `Stimulator::enable`: open the port, configure it, initialize the board;
each failing step stops the sequence and leaves the stimulator disabled. -/
def Stimulator.enable (s : Stimulator) (e : Env) : Bool × Stimulator × Env :=
  let r₁ := open_port s.name e
  if r₁.1 then
    let r₂ := configure_port r₁.2
    if r₂.1 then
      let r₃ := initialize_board s.channels r₂.2
      if r₃.1 then (true, { s with enabled := true }, r₃.2)
      else (false, { s with enabled := false }, r₃.2)
    else (false, { s with enabled := false }, r₂.2)
  else (false, { s with enabled := false }, r₁.2)

/-- `Stimulator::disable`: when enabled, disable the scheduler, close the
handle (`close_stimulator`) and log; otherwise only log that the stimulator
was never enabled.  Either way the enabled flag ends up false. -/
def Stimulator.disable (s : Stimulator) (e : Env) : Stimulator × Env :=
  if s.enabled then
    ({ s with enabled := false, scheduler := s.scheduler.disable },
     logInfo { e with transport := { e.transport with isOpen := false } }
       "Stimulator Disabled")
  else
    ({ s with enabled := false },
     logInfo e "Stimulator has not been enabled yet.")

/-- `Stimulator::begin`: requires enabled; delegates to the scheduler's sync
transmission.  When disabled, logs an error and returns false. -/
def Stimulator.begin (s : Stimulator) (e : Env) : Bool × Stimulator × Env :=
  if s.enabled then
    let r := s.scheduler.send_sync_msg e
    (r.1, { s with enabled := true, scheduler := r.2.1 }, r.2.2)
  else
    (false, s,
     logErr e "Stimulator has not yet been opened. Not starting the stimulator")

/-- `Stimulator::set_amp`: a `void` function in C++.  The first component of
the result records the value returned to the caller: it is `none` because the
function returns no value.  When enabled the amplitude is staged on the
scheduler; when disabled an error is logged and nothing else happens. -/
def Stimulator.set_amp (s : Stimulator) (c : Channel) (amp : Nat) (e : Env) :
    Option Bool × Stimulator × Env :=
  if s.enabled then
    (none, { s with scheduler := s.scheduler.set_amp c amp }, e)
  else
    (none, s,
     logErr e "Stimulator has not yet been enabled. Not writing amplitude")

/-- `Stimulator::write_pw`: a `void` function in C++ (first component `none`
as in `Stimulator.set_amp`).  When enabled the pulse width is staged on the
scheduler; when disabled an error is logged and nothing else happens. -/
def Stimulator.write_pw (s : Stimulator) (c : Channel) (pw : Nat) (e : Env) :
    Option Bool × Stimulator × Env :=
  if s.enabled then
    (none, { s with scheduler := s.scheduler.write_pw c pw }, e)
  else
    (none, s,
     logErr e "Stimulator has not yet been enabled. Not writing pulsewidth")

/-- Linear scan of `Stimulator::update_max_amp`: find the first channel whose
name equals the given name and set its max amplitude; `none` when no channel
matches. -/
def updateMaxAmpScan : List Channel → String → Nat → Option (List Channel)
  | [], _, _ => none
  | c :: rest, nm, m =>
    if c.get_channel_name = nm then some (c.set_max_amplitude m :: rest)
    else (updateMaxAmpScan rest nm m).map (fun l => c :: l)

/-- `Stimulator::update_max_amp`: update the first name-matching channel's
max amplitude; when no channel matches, log an error. -/
def Stimulator.update_max_amp (s : Stimulator) (c : Channel) (max_amp : Nat)
    (e : Env) : Stimulator × Env :=
  match updateMaxAmpScan s.channels c.get_channel_name max_amp with
  | some l => ({ s with channels := l }, e)
  | none => (s, logErr e "Did not find the correct channel to update")

/-- Linear scan of `Stimulator::update_max_pw` (as `updateMaxAmpScan`, for
the max pulse width). -/
def updateMaxPwScan : List Channel → String → Nat → Option (List Channel)
  | [], _, _ => none
  | c :: rest, nm, m =>
    if c.get_channel_name = nm then some (c.set_max_pulse_width m :: rest)
    else (updateMaxPwScan rest nm m).map (fun l => c :: l)

/-- `Stimulator::update_max_pw`: update the first name-matching channel's max
pulse width; when no channel matches, log an error. -/
def Stimulator.update_max_pw (s : Stimulator) (c : Channel) (max_pw : Nat)
    (e : Env) : Stimulator × Env :=
  match updateMaxPwScan s.channels c.get_channel_name max_pw with
  | some l => ({ s with channels := l }, e)
  | none => (s, logErr e "Did not find the correct channel to update")

/-- One iteration of the snapshot loop in `Stimulator::update`: store event
`i`'s staged amplitude/pulse width and channel `i`'s current max values into
the flat arrays. -/
def snapStep (s : Stimulator) (i : Nat) : Stimulator :=
  let c := s.channels.getD i default
  { s with
    amplitudes := s.amplitudes.set i (s.scheduler.get_amp c),
    pulsewidths := s.pulsewidths.set i (s.scheduler.get_pw c),
    max_amplitudes := s.max_amplitudes.set i c.get_max_amplitude,
    max_pulsewidths := s.max_pulsewidths.set i c.get_max_pulse_width }

/-- The snapshot section of `Stimulator::update`: the loop
`for i in [0, scheduler.get_num_events)` over `snapStep` (executed under the
mutex in C++; the mutex is not modelled in this single-threaded embedding). -/
def snapshot (s : Stimulator) : Stimulator :=
  (List.range s.scheduler.get_num_events).foldl snapStep s

/-- The read loop of `Stimulator::read_all`: one-byte reads until a read
returns zero bytes (`none`), which ends the loop as a normal condition. -/
def drainReads : List (Option Nat) → List (Option Nat)
  | [] => []
  | none :: rest => rest
  | some _ :: rest => drainReads rest

/-- `Stimulator::read_all`: drain and print all bytes available from the
transport until a read times out (printing to stdout is not modelled). -/
def read_all (e : Env) : Env :=
  { e with transport :=
    { e.transport with reads := drainReads e.transport.reads } }

/-- `Stimulator::update`: requires enabled; snapshot the per-event and
per-channel values, delegate to `Scheduler::update`, then `read_all`; the
returned bool is the scheduler's.  When disabled, log an error and return
false. -/
def Stimulator.update (s : Stimulator) (e : Env) : Bool × Stimulator × Env :=
  if s.enabled then
    let s' := snapshot s
    let r := s.scheduler.update e
    (r.1, s', read_all r.2)
  else
    (false, s, logErr e "Stimulator has not yet been enabled. Not updating")

/-- `Stimulator::create_scheduler`: requires enabled; sends the
create-scheduler frame via the scheduler, reads the reply with
`wait_for_message`, prints and stores the reply's first payload byte as the
scheduler id, and returns the send's outcome.  The C++ computes `duration`
from a `double` frequency; that floating-point step is outside the model, so
`duration` is taken directly.  `get_data()[0]` on an empty reply payload is
an out-of-bounds `std::vector` access, i.e. undefined behavior, modelled as
`none`. -/
def Stimulator.create_scheduler (s : Stimulator) (sync_msg duration : Nat)
    (e : Env) : Option (Bool × Stimulator × Env) :=
  if s.enabled then
    let r := s.scheduler.create_scheduler sync_msg duration e
    let w := wait_for_message r.2.2
    match w.1.get_data with
    | [] => none
    | b :: _ => some (r.1, { s with scheduler := r.2.1.set_id b }, w.2)
  else
    some (false, s,
      logErr e "Stimulator has not yet been enabled. Not creating scheduler")

/-- `Stimulator::add_event`: requires enabled; delegates to
`Scheduler::add_event`. -/
def Stimulator.add_event (s : Stimulator) (c : Channel) (event_type : Nat)
    (e : Env) : Bool × Stimulator × Env :=
  if s.enabled then
    let r := s.scheduler.add_event c event_type e
    (r.1, { s with scheduler := r.2.1 }, r.2.2)
  else
    (false, s,
     logErr e "Stimulator has not yet been enabled. Not adding event to scheduler")

/-- The loop of `Stimulator::add_events`: add each channel's event in order,
returning false at the first failure without attempting the rest. -/
def addEventsLoop : Stimulator → List Channel → Nat → Env →
    Bool × Stimulator × Env
  | s, [], _, e => (true, s, e)
  | s, c :: rest, et, e =>
    let r := s.add_event c et e
    if r.1 then addEventsLoop r.2.1 rest et r.2.2 else (false, r.2.1, r.2.2)

/-- `Stimulator::add_events`: requires enabled; adds one event per channel in
list order via `add_event`, stopping at the first failure. -/
def Stimulator.add_events (s : Stimulator) (chs : List Channel)
    (event_type : Nat) (e : Env) : Bool × Stimulator × Env :=
  if s.enabled then addEventsLoop s chs event_type e
  else
    (false, s,
     logErr e "Stimulator has not yet been enabled. Not adding event to scheduler")

/-- The legacy `fes::Stimulator` of `src/src/FES/Core/Stimulator.cpp` (only
the fields its `enable` touches). -/
structure FESStimulator where
  name : String
  open_flag : Bool
  channels : List Channel
  scheduler : Scheduler
deriving DecidableEq, Repr

/-- The legacy `fes::Stimulator::enable` of `src/src/FES/Core/Stimulator.cpp`
lines 33-37: `open = open_port(hComm); configure_port(hComm);
initialize_board(hComm);` — the three steps run unconditionally (a failure
does not stop the sequence) and the function falls off the end of a
`bool`-returning body, so the value returned to the caller is undefined
(modelled as `none`). -/
def FESStimulator.enable (s : FESStimulator) (e : Env) :
    Option Bool × FESStimulator × Env :=
  let r₁ := open_port s.name e
  let r₂ := configure_port r₁.2
  let r₃ := initialize_board s.channels r₂.2
  (none, { s with open_flag := r₁.1 }, r₃.2)

/-! Concrete fixtures used by witnesses and counterexamples. -/

/-- A concrete channel. -/
def chanA : Channel := ⟨1, "ChannelA", 50, 250, 100, 0x11, 0x01⟩

/-- A second concrete channel. -/
def chanB : Channel := ⟨2, "ChannelB", 60, 200, 100, 0x11, 0x23⟩

/-- A fresh, closed transport with all oracles at their defaults. -/
def transport0 : Transport := ⟨false, false, [], [], [], []⟩

/-- A fresh environment whose open/configure calls succeed. -/
def env0 : Env := ⟨transport0, true, true, []⟩

/-- A stimulator as constructed but never (successfully) enabled. -/
def stim0 : Stimulator :=
  ⟨"LegStim", "COM5", false, [chanA, chanB], Scheduler.init, 2,
   [0, 0], [0, 0], [50, 60], [250, 200], ["ChannelA", "ChannelB"]⟩

/-- The same stimulator with its enabled flag set. -/
def stimEn : Stimulator := { stim0 with enabled := true }

/-- Claim C9: disabling a `Stimulator` that was never enabled transmits no
frame, leaves the transport handle and the scheduler untouched, logs an
informational message, and leaves the stimulator disabled (the structure is
unchanged). -/
theorem disable_never_enabled (s : Stimulator) (e : Env)
    (h : s.enabled = false) :
    (s.disable e).1 = s ∧
    (s.disable e).2.transport = e.transport ∧
    (s.disable e).2.log =
      e.log ++ [(LogLevel.Info, "Stimulator has not been enabled yet.")] := by
  have hs : { s with enabled := false } = s := by
    cases s
    simp_all
  unfold Stimulator.disable
  rw [h]
  simp only [Bool.false_eq_true, if_false]
  exact ⟨hs, rfl, rfl⟩

/-- Claim C9 witness: the concrete never-enabled stimulator. -/
theorem disable_never_enabled_witness :
    stim0.enabled = false ∧
    (stim0.disable env0).1 = stim0 ∧
    (stim0.disable env0).2.transport = env0.transport ∧
    (stim0.disable env0).2.log =
      env0.log ++ [(LogLevel.Info, "Stimulator has not been enabled yet.")] :=
  ⟨rfl, disable_never_enabled stim0 env0 rfl⟩

/-- The linear scan of `update_max_amp` finds exactly the first name match
and rewrites only that channel's max amplitude. -/
theorem updateMaxAmpScan_eq (chs : List Channel) (nm : String) (m : Nat) :
    updateMaxAmpScan chs nm m =
      (chs.findIdx? (fun c => c.channel_name == nm)).map
        (fun k => chs.set k ((chs.getD k default).set_max_amplitude m)) := by
  induction chs with
  | nil => rfl
  | cons c rest ih =>
    by_cases h : c.channel_name = nm
    · simp [updateMaxAmpScan, Channel.get_channel_name, h]
    · simp only [updateMaxAmpScan, Channel.get_channel_name, h, if_neg,
        if_false, List.findIdx?_cons, beq_iff_eq, List.findIdx?_succ, ih]
      cases hidx : rest.findIdx? (fun c => c.channel_name == nm) with
      | none => simp [hidx]
      | some k => simp [hidx]

/-- The linear scan of `update_max_pw` finds exactly the first name match and
rewrites only that channel's max pulse width. -/
theorem updateMaxPwScan_eq (chs : List Channel) (nm : String) (m : Nat) :
    updateMaxPwScan chs nm m =
      (chs.findIdx? (fun c => c.channel_name == nm)).map
        (fun k => chs.set k ((chs.getD k default).set_max_pulse_width m)) := by
  induction chs with
  | nil => rfl
  | cons c rest ih =>
    by_cases h : c.channel_name = nm
    · simp [updateMaxPwScan, Channel.get_channel_name, h]
    · simp only [updateMaxPwScan, Channel.get_channel_name, h, if_neg,
        if_false, List.findIdx?_cons, beq_iff_eq, List.findIdx?_succ, ih]
      cases hidx : rest.findIdx? (fun c => c.channel_name == nm) with
      | none => simp [hidx]
      | some k => simp [hidx]

/-- Claim C10: `update_max_amp` (and likewise `update_max_pw`) rewrites the
max-amplitude (max-pulse-width) field of exactly the first channel whose name
matches the argument's name — every other channel and every other field stays
unchanged, as does the transport (no frame is sent); when no name matches,
the channel list is unchanged and an error is logged. -/
theorem update_max_first_match (s : Stimulator) (c : Channel) (m : Nat)
    (e : Env) :
    ((s.update_max_amp c m e).2.transport = e.transport) ∧
    ((s.update_max_pw c m e).2.transport = e.transport) ∧
    ((s.update_max_amp c m e).1.scheduler = s.scheduler) ∧
    ((s.update_max_amp c m e).1.enabled = s.enabled) ∧
    ((s.update_max_pw c m e).1.scheduler = s.scheduler) ∧
    ((s.update_max_pw c m e).1.enabled = s.enabled) ∧
    (match s.channels.findIdx? (fun ch => ch.channel_name == c.channel_name)
     with
     | some k =>
       (s.update_max_amp c m e).1.channels =
         s.channels.set k ((s.channels.getD k default).set_max_amplitude m) ∧
       (s.update_max_pw c m e).1.channels =
         s.channels.set k ((s.channels.getD k default).set_max_pulse_width m) ∧
       (s.update_max_amp c m e).2.log = e.log ∧
       (s.update_max_pw c m e).2.log = e.log
     | none =>
       (s.update_max_amp c m e).1.channels = s.channels ∧
       (s.update_max_pw c m e).1.channels = s.channels ∧
       (s.update_max_amp c m e).2.log = e.log ++
         [(LogLevel.Error, "Did not find the correct channel to update")] ∧
       (s.update_max_pw c m e).2.log = e.log ++
         [(LogLevel.Error, "Did not find the correct channel to update")]) := by
  have hamp := updateMaxAmpScan_eq s.channels c.channel_name m
  have hpw := updateMaxPwScan_eq s.channels c.channel_name m
  unfold Stimulator.update_max_amp Stimulator.update_max_pw
  rw [Channel.get_channel_name, hamp, hpw]
  cases hidx : s.channels.findIdx? (fun ch => ch.channel_name == c.channel_name)
  with
  | none => exact ⟨rfl, rfl, rfl, rfl, rfl, rfl, rfl, rfl, rfl, rfl⟩
  | some k => exact ⟨rfl, rfl, rfl, rfl, rfl, rfl, rfl, rfl, rfl, rfl⟩

/-- Claim C10 witness: updating `ChannelB`'s max amplitude touches exactly
the second channel. -/
theorem update_max_first_match_witness :
    (stim0.update_max_amp chanB 42 env0).1.channels =
      [chanA, { chanB with max_amplitude := 42 }] := by
  have h := update_max_first_match stim0 chanB 42 env0
  have hidx : stim0.channels.findIdx?
      (fun ch => ch.channel_name == chanB.channel_name) = some 1 := by decide
  rw [hidx] at h
  exact h.2.2.2.2.2.2.1

/-- Claim C4 counterexample: `Stimulator::set_amp` is a `void` function — at
a concrete disabled stimulator the value returned to the caller is no boolean
at all (`none`), in particular not the `false` return the claim asserts. -/
theorem set_amp_returns_no_bool :
    (stim0.set_amp chanA 10 env0).1 = none ∧
    ¬ (stim0.set_amp chanA 10 env0).1 = some false := by
  exact ⟨rfl, by decide⟩

/-- Claim C4 (amended): on a disabled `Stimulator`, each of `set_amp`,
`write_pw`, `begin` and `update` rejects the call with a logged error,
transmits no frame and leaves the stimulator unchanged; `begin` and `update`
return false, while `set_amp` and `write_pw` are `void` and return no value.
All four are total functions of the state (no exception or crash). -/
theorem disabled_ops_reject (s : Stimulator) (c : Channel) (a p : Nat)
    (e : Env) (h : s.enabled = false) :
    ((s.set_amp c a e).1 = none ∧ (s.set_amp c a e).2.1 = s ∧
     (s.set_amp c a e).2.2.transport = e.transport ∧
     (s.set_amp c a e).2.2.log = e.log ++
       [(LogLevel.Error,
         "Stimulator has not yet been enabled. Not writing amplitude")]) ∧
    ((s.write_pw c p e).1 = none ∧ (s.write_pw c p e).2.1 = s ∧
     (s.write_pw c p e).2.2.transport = e.transport ∧
     (s.write_pw c p e).2.2.log = e.log ++
       [(LogLevel.Error,
         "Stimulator has not yet been enabled. Not writing pulsewidth")]) ∧
    ((s.begin e).1 = false ∧ (s.begin e).2.1 = s ∧
     (s.begin e).2.2.transport = e.transport ∧
     (s.begin e).2.2.log = e.log ++
       [(LogLevel.Error,
         "Stimulator has not yet been opened. Not starting the stimulator")]) ∧
    ((s.update e).1 = false ∧ (s.update e).2.1 = s ∧
     (s.update e).2.2.transport = e.transport ∧
     (s.update e).2.2.log = e.log ++
       [(LogLevel.Error,
         "Stimulator has not yet been enabled. Not updating")]) := by
  unfold Stimulator.set_amp Stimulator.write_pw Stimulator.begin
    Stimulator.update
  rw [h]
  exact ⟨⟨rfl, rfl, rfl, rfl⟩, ⟨rfl, rfl, rfl, rfl⟩, ⟨rfl, rfl, rfl, rfl⟩,
    ⟨rfl, rfl, rfl, rfl⟩⟩

/-- Claim C4 witness: the concrete disabled stimulator. -/
theorem disabled_ops_reject_witness :
    stim0.enabled = false ∧
    (stim0.begin env0).1 = false ∧
    (stim0.update env0).1 = false ∧
    (stim0.write_pw chanA 10 env0).1 = none ∧
    (stim0.begin env0).2.2.transport = env0.transport :=
  ⟨rfl,
   (disabled_ops_reject stim0 chanA 10 10 env0 rfl).2.2.1.1,
   (disabled_ops_reject stim0 chanA 10 10 env0 rfl).2.2.2.1,
   (disabled_ops_reject stim0 chanA 10 10 env0 rfl).2.1.1,
   (disabled_ops_reject stim0 chanA 10 10 env0 rfl).2.2.1.2.2.1⟩

/-- An environment whose transport is open and configured but delivers no
reply frame within the read timeout. -/
def envNoReply : Env := ⟨⟨true, true, [], [], [], []⟩, true, true, []⟩

/-- An environment whose transport delivers one reply frame with first
payload byte `0x03`. -/
def envReply03 : Env := ⟨⟨true, true, [], [], [], [[0x03]]⟩, true, true, []⟩

/-- Claim C1: evaluating `Stimulator::create_scheduler` on an enabled
stimulator.  At the failing input (create frame sent successfully, no reply
within the timeout — empty payload) the execution hits the out-of-bounds
access `get_data()[0]` (undefined behavior, modelled `none`) instead of
failing cleanly; the claim's empty-reply case therefore never produces a
`false` return.  When a reply with first byte `0x03` is present, the id is
stored unconditionally and `get_id()` returns `0x03`, while the returned
boolean is the send outcome (true), independent of the reply. -/
theorem create_scheduler_reply_handling :
    Stimulator.create_scheduler stimEn 0x7E 20 envNoReply = none ∧
    (¬ ∃ r, Stimulator.create_scheduler stimEn 0x7E 20 envNoReply = some r ∧
      r.1 = false) ∧
    (Stimulator.create_scheduler stimEn 0x7E 20 envReply03).map
      (fun r => r.1) = some true ∧
    (Stimulator.create_scheduler stimEn 0x7E 20 envReply03).map
      (fun r => r.2.1.scheduler.get_id) = some 0x03 := by
  refine ⟨by decide, ?_, by decide, by decide⟩
  intro hex
  obtain ⟨r, hr, _⟩ := hex
  rw [show Stimulator.create_scheduler stimEn 0x7E 20 envNoReply = none
    from by decide] at hr
  exact Option.noConfusion hr

/-- Whether the first `n` writes drawn from the oracle list all succeed
(an exhausted oracle means success). -/
def allOk : Nat → List Bool → Bool
  | 0, _ => true
  | n + 1, rs => rs.headD true && allOk n rs.tail

/-- How many writes a stop-at-first-failure loop over `n` items performs:
every item up to and including the first failing write. -/
def attempts : Nat → List Bool → Nat
  | 0, _ => 0
  | n + 1, rs => if rs.headD true then 1 + attempts n rs.tail else 1

/-- How many writes of a stop-at-first-failure loop over `n` items succeed. -/
def successes : Nat → List Bool → Nat
  | 0, _ => 0
  | n + 1, rs => if rs.headD true then 1 + successes n rs.tail else 0

/-- `setup_channel` projections: the returned bool is the next write oracle
entry, and the transport gains exactly the checksummed setup frame. -/
theorem setup_channel_env (c : Channel) (e : Env) :
    (c.setup_channel e).1 = e.transport.writeResults.headD true ∧
    (c.setup_channel e).2.transport =
      { e.transport with
        written := e.transport.written ++ [withChecksum c.setup_frame],
        writeResults := e.transport.writeResults.tail } :=
  ⟨rfl, writeLog_transport _ _ _⟩

/-- Full characterization of the `initialize_board` loop: the result is the
conjunction of the first `|chs|` write oracles, the frames handed to the
transport are exactly the checksummed setup frames of the channels up to and
including the first failure, and the port flags are untouched. -/
theorem initialize_board_spec (chs : List Channel) :
    ∀ e : Env,
    (initialize_board chs e).1 =
      allOk chs.length e.transport.writeResults ∧
    (initialize_board chs e).2.transport.written =
      e.transport.written ++
        (chs.take (attempts chs.length e.transport.writeResults)).map
          (fun c => withChecksum c.setup_frame) ∧
    (initialize_board chs e).2.transport.configured =
      e.transport.configured ∧
    (initialize_board chs e).2.transport.isOpen = e.transport.isOpen := by
  induction chs with
  | nil =>
    intro e
    exact ⟨rfl, by simp [initialize_board, attempts, logInfo], rfl, rfl⟩
  | cons c rest ih =>
    intro e
    obtain ⟨hok, htr⟩ := setup_channel_env c e
    have hw : (c.setup_channel e).2.transport.written =
        e.transport.written ++ [withChecksum c.setup_frame] := by
      rw [htr]
    have hr : (c.setup_channel e).2.transport.writeResults =
        e.transport.writeResults.tail := by
      rw [htr]
    have hcf : (c.setup_channel e).2.transport.configured =
        e.transport.configured := by
      rw [htr]
    have hio : (c.setup_channel e).2.transport.isOpen =
        e.transport.isOpen := by
      rw [htr]
    simp only [initialize_board]
    by_cases hb : e.transport.writeResults.headD true = true
    · rw [hok, hb]
      simp only [if_true]
      obtain ⟨ih1, ih2, ih3, ih4⟩ := ih (c.setup_channel e).2
      rw [hr] at ih1
      rw [hw, hr] at ih2
      rw [hcf] at ih3
      rw [hio] at ih4
      simp only [List.length_cons, allOk, attempts, hb, if_true,
        Bool.true_and]
      refine ⟨ih1, ?_, ih3, ih4⟩
      rw [ih2, Nat.add_comm 1 (attempts rest.length e.transport.writeResults.tail),
        List.take_succ_cons, List.map_cons, List.append_assoc]
      rfl
    · simp only [Bool.not_eq_true] at hb
      rw [hok, hb]
      simp only [Bool.false_eq_true, if_false]
      refine ⟨?_, ?_, hcf, hio⟩
      · simp only [List.length_cons, allOk]
        rw [hb]
        simp
      · rw [show ((false, (c.setup_channel e).2) :
            Bool × Env).2.transport.written =
            e.transport.written ++ [withChecksum c.setup_frame] from hw]
        simp only [List.length_cons, attempts]
        rw [hb]
        simp

/-- An environment whose port open fails but whose configuration calls would
succeed. -/
def envOpenFail : Env := ⟨⟨false, false, [], [], [], []⟩, false, true, []⟩

/-- A concrete legacy `fes::Stimulator` with one channel. -/
def fesStim : FESStimulator := ⟨"OldStim", false, [chanA], Scheduler.init⟩

/-- A fresh environment whose first write succeeds and second write fails. -/
def envWR : Env := ⟨⟨true, true, [], [true, false], [], []⟩, true, true, []⟩

/-- A stimulator with a three-channel list (never enabled). -/
def stim3 : Stimulator := { stim0 with channels := [chanA, chanB, chanA] }

/-- Claim C5 counterexample: the legacy `fes::Stimulator::enable`
(`src/src/FES/Core/Stimulator.cpp` lines 33-37) does not stop at the first
failing step — at a concrete input whose port open fails, the channel-setup
frame is still transmitted, and the function's return value is undefined
(missing return statement) rather than false. -/
theorem legacy_enable_no_early_stop :
    envOpenFail.openOk = false ∧
    (fesStim.enable envOpenFail).2.2.transport.written =
      [withChecksum chanA.setup_frame] ∧
    (fesStim.enable envOpenFail).1 = none := by decide

/-- Claim C5 (amended): the current `mahi::fes::Stimulator::enable` opens the
transport, applies the serial configuration, then runs `setup_channel` over
the channel list in order; it stops at the first failing step (a failed open
leaves the configuration untouched and transmits nothing; a failed
configuration transmits nothing; the setup loop transmits exactly the frames
up to and including the first failing one), its boolean result is true iff
every step succeeded, and the enabled flag equals that result.  The legacy
`fes::Stimulator::enable` in `src/src/FES/Core` instead runs all three steps
unconditionally with an undefined return value. -/
theorem enable_spec (s : Stimulator) (e : Env) :
    ((s.enable e).2.1.enabled = (s.enable e).1) ∧
    ((s.enable e).1 =
      (e.openOk &&
        (e.configOk && allOk s.channels.length e.transport.writeResults))) ∧
    (e.openOk = false →
      (s.enable e).2.2.transport.written = e.transport.written ∧
      (s.enable e).2.2.transport.configured = e.transport.configured ∧
      (s.enable e).2.2.transport.writeResults = e.transport.writeResults) ∧
    (e.openOk = true → e.configOk = false →
      (s.enable e).2.2.transport.written = e.transport.written ∧
      (s.enable e).2.2.transport.writeResults = e.transport.writeResults) ∧
    (e.openOk = true → e.configOk = true →
      (s.enable e).2.2.transport.configured = true ∧
      (s.enable e).2.2.transport.written =
        e.transport.written ++
          (s.channels.take
            (attempts s.channels.length e.transport.writeResults)).map
            (fun c => withChecksum c.setup_frame)) := by
  by_cases ho : e.openOk = true
  · by_cases hc : e.configOk = true
    · have hEw : (configure_port (open_port s.name e).2).2.transport.writeResults
          = e.transport.writeResults := by
        simp [configure_port, open_port, logInfo, logErr, ho, hc]
      have hEwr : (configure_port (open_port s.name e).2).2.transport.written
          = e.transport.written := by
        simp [configure_port, open_port, logInfo, logErr, ho, hc]
      obtain ⟨h1, h2, h3, h4⟩ := initialize_board_spec s.channels
        (configure_port (open_port s.name e).2).2
      rw [hEw] at h1
      rw [hEwr, hEw] at h2
      have hen : s.enable e =
          (if (initialize_board s.channels
                (configure_port (open_port s.name e).2).2).1 then
            (true, { s with enabled := true },
              (initialize_board s.channels
                (configure_port (open_port s.name e).2).2).2)
          else
            (false, { s with enabled := false },
              (initialize_board s.channels
                (configure_port (open_port s.name e).2).2).2)) := by
        unfold Stimulator.enable configure_port open_port
        rw [ho, hc]
        rfl
      rw [ho, hc]
      by_cases hi : (initialize_board s.channels
          (configure_port (open_port s.name e).2).2).1 = true
      · have hall : allOk s.channels.length e.transport.writeResults = true :=
          h1.symm.trans hi
        rw [hi] at hen
        simp only [if_true] at hen
        rw [hen]
        refine ⟨rfl, by simp [hall], ?_, ?_, fun _ _ => ⟨?_, h2⟩⟩
        · intro hof; exact absurd hof (by simp)
        · intro _ hcf; exact absurd hcf (by simp)
        · rw [h3]
          simp [configure_port, open_port, logInfo, logErr, ho, hc]
      · simp only [Bool.not_eq_true] at hi
        have hall : allOk s.channels.length e.transport.writeResults = false :=
          h1.symm.trans hi
        rw [hi] at hen
        simp only [Bool.false_eq_true, if_false] at hen
        rw [hen]
        refine ⟨rfl, by simp [hall], ?_, ?_, fun _ _ => ⟨?_, h2⟩⟩
        · intro hof; exact absurd hof (by simp)
        · intro _ hcf; exact absurd hcf (by simp)
        · rw [h3]
          simp [configure_port, open_port, logInfo, logErr, ho, hc]
    · simp only [Bool.not_eq_true] at hc
      have hen : s.enable e =
          (false, { s with enabled := false },
            logErr (open_port s.name e).2 "Error setting serial port state") := by
        unfold Stimulator.enable configure_port open_port
        rw [ho, hc]
        rfl
      rw [hen, ho, hc]
      refine ⟨rfl, by simp, ?_, ?_, ?_⟩
      · intro hof; exact absurd hof (by simp)
      · refine fun _ _ => ⟨?_, ?_⟩ <;>
          simp [logErr, open_port, logInfo, ho]
      · intro _ hct; exact absurd hct (by simp)
  · simp only [Bool.not_eq_true] at ho
    have hen : s.enable e =
        (false, { s with enabled := false },
          logErr e ("Failed to open Stimulator" ++ s.name)) := by
      unfold Stimulator.enable open_port
      rw [ho]
      rfl
    rw [hen, ho]
    refine ⟨rfl, by simp, fun _ => ⟨rfl, rfl, rfl⟩, ?_, ?_⟩
    · intro hot; exact absurd hot (by simp)
    · intro hot; exact absurd hot (by simp)

/-- Claim C5 witness: with three channels and a write oracle failing on the
second write, `enable` returns false, the stimulator ends disabled, and
exactly the first two setup frames were handed to the transport. -/
theorem enable_spec_witness :
    (stim3.enable envWR).1 = false ∧
    (stim3.enable envWR).2.1.enabled = false ∧
    (stim3.enable envWR).2.2.transport.written =
      [withChecksum chanA.setup_frame, withChecksum chanB.setup_frame] := by
  have h := enable_spec stim3 envWR
  refine ⟨?_, ?_, ?_⟩
  · rw [h.2.1]; decide
  · rw [h.1, h.2.1]; decide
  · rw [(h.2.2.2.2 rfl rfl).2]; decide

/-- The events appended by a run of successful `add_event` calls: one per
channel, ids continuing the device's sequential allocation from `base`. -/
def newEvents (base et : Nat) : List Channel → List Event
  | [] => []
  | c :: rest => ⟨base, c, 0, 0, et⟩ :: newEvents (base + 1) et rest

/-- `Scheduler.add_event` projections, as consumed by the batch loop. -/
theorem add_event_env (sch : Scheduler) (c : Channel) (et : Nat) (e : Env) :
    (sch.add_event c et e).1 = e.transport.writeResults.headD true ∧
    ((sch.add_event c et e).2.1 =
      (if e.transport.writeResults.headD true then
        { sch with m_events :=
          sch.m_events ++ [⟨sch.m_events.length, c, 0, 0, et⟩] }
      else sch)) ∧
    (sch.add_event c et e).2.2.transport =
      { e.transport with
        written := e.transport.written ++
          [withChecksum (addEventFrame sch.m_id c et)],
        writeResults := e.transport.writeResults.tail } := by
  unfold Scheduler.add_event write_message
  dsimp only
  by_cases hb : e.transport.writeResults.headD true = true
  · rw [if_pos hb, if_pos hb]
    exact ⟨hb.symm, rfl, writeLog_transport _ _ _⟩
  · rw [if_neg hb, if_neg hb]
    simp only [Bool.not_eq_true] at hb
    exact ⟨hb.symm, rfl, writeLog_transport _ _ _⟩

/-- Full characterization of the `add_events` loop on an enabled stimulator:
the result is the conjunction of the first `|chs|` write oracles, the events
appended are exactly those of the channels whose write succeeded before the
first failure (never rolled back), and the frames handed to the transport are
those of the channels up to and including the first failure. -/
theorem addEventsLoop_spec (chs : List Channel) :
    ∀ (s : Stimulator) (et : Nat) (e : Env), s.enabled = true →
    (addEventsLoop s chs et e).1 =
      allOk chs.length e.transport.writeResults ∧
    (addEventsLoop s chs et e).2.1.scheduler.m_events =
      s.scheduler.m_events ++
        newEvents s.scheduler.m_events.length et
          (chs.take (successes chs.length e.transport.writeResults)) ∧
    (addEventsLoop s chs et e).2.1.scheduler.m_id = s.scheduler.m_id ∧
    (addEventsLoop s chs et e).2.1.enabled = true ∧
    (addEventsLoop s chs et e).2.1.channels = s.channels ∧
    (addEventsLoop s chs et e).2.2.transport.written =
      e.transport.written ++
        (chs.take (attempts chs.length e.transport.writeResults)).map
          (fun c => withChecksum (addEventFrame s.scheduler.m_id c et)) := by
  induction chs with
  | nil =>
    intro s et e hen
    exact ⟨rfl, by simp [addEventsLoop, successes, newEvents], rfl, hen, rfl,
      by simp [addEventsLoop, attempts]⟩
  | cons c rest ih =>
    intro s et e hen
    obtain ⟨hok, hsch, htr⟩ := add_event_env s.scheduler c et e
    have hstep : s.add_event c et e =
        ((s.scheduler.add_event c et e).1,
         { s with scheduler := (s.scheduler.add_event c et e).2.1 },
         (s.scheduler.add_event c et e).2.2) := by
      unfold Stimulator.add_event
      rw [if_pos hen]
    simp only [addEventsLoop]
    rw [hstep]
    dsimp only
    rw [hok]
    by_cases hb : e.transport.writeResults.headD true = true
    · rw [if_pos hb]
      rw [if_pos hb] at hsch
      rw [hsch]
      obtain ⟨ih1, ih2, ih3, ih4, ih5, ih6⟩ := ih
        { s with scheduler :=
          { s.scheduler with m_events := s.scheduler.m_events ++
            [⟨s.scheduler.m_events.length, c, 0, 0, et⟩] } } et
        (s.scheduler.add_event c et e).2.2 hen
      rw [htr] at ih1 ih2 ih6
      dsimp only at ih1 ih2 ih3 ih4 ih5 ih6
      refine ⟨?_, ?_, ih3, ih4, ih5, ?_⟩
      · rw [ih1]
        simp only [List.length_cons, allOk]
        rw [hb]
        simp
      · rw [ih2]
        simp only [List.length_cons, successes]
        rw [hb]
        simp only [if_true, Nat.add_comm 1
          (successes rest.length e.transport.writeResults.tail),
          List.take_succ_cons]
        simp [newEvents, List.append_assoc]
      · rw [ih6]
        simp only [List.length_cons, attempts]
        rw [hb]
        simp only [if_true, Nat.add_comm 1
          (attempts rest.length e.transport.writeResults.tail),
          List.take_succ_cons, List.map_cons]
        simp [List.append_assoc]
    · rw [if_neg hb]
      rw [if_neg hb] at hsch
      rw [hsch]
      simp only [Bool.not_eq_true] at hb
      refine ⟨?_, ?_, rfl, hen, rfl, ?_⟩
      · simp only [List.length_cons, allOk]
        rw [hb]
        simp
      · simp only [List.length_cons, successes]
        rw [hb]
        simp [newEvents]
      · rw [show ((false,
            { s with scheduler := s.scheduler },
            (s.scheduler.add_event c et e).2.2) :
            Bool × Stimulator × Env).2.2.transport.written =
            e.transport.written ++
              [withChecksum (addEventFrame s.scheduler.m_id c et)]
          from by rw [htr]]
        simp only [List.length_cons, attempts]
        rw [hb]
        simp

/-- Claim C7: on an enabled stimulator, `add_events` adds one event per
channel in list order via `add_event`, stops at the first `add_event` failure
returning false with the remaining channels never attempted (exactly the
frames up to and including the failing one are transmitted), keeps the events
added before the failure (no rollback), and returns true exactly when every
`add_event` succeeds. -/
theorem add_events_spec (s : Stimulator) (chs : List Channel) (et : Nat)
    (e : Env) (hen : s.enabled = true) :
    (s.add_events chs et e).1 =
      allOk chs.length e.transport.writeResults ∧
    (s.add_events chs et e).2.1.scheduler.m_events =
      s.scheduler.m_events ++
        newEvents s.scheduler.m_events.length et
          (chs.take (successes chs.length e.transport.writeResults)) ∧
    (s.add_events chs et e).2.2.transport.written =
      e.transport.written ++
        (chs.take (attempts chs.length e.transport.writeResults)).map
          (fun c => withChecksum (addEventFrame s.scheduler.m_id c et)) := by
  have h := addEventsLoop_spec chs s et e hen
  have hculprit : s.add_events chs et e = addEventsLoop s chs et e := by
    unfold Stimulator.add_events
    rw [if_pos hen]
  rw [hculprit]
  exact ⟨h.1, h.2.1, h.2.2.2.2.2⟩

/-- Claim C7 witness: three channels with the second write failing — one
event added, two frames attempted, overall result false. -/
theorem add_events_spec_witness :
    stimEn.enabled = true ∧
    (stimEn.add_events [chanA, chanB, chanA] STIM_EVENT envWR).1 = false ∧
    (stimEn.add_events [chanA, chanB, chanA] STIM_EVENT envWR).2.1.scheduler.m_events
      = [⟨0, chanA, 0, 0, STIM_EVENT⟩] ∧
    (stimEn.add_events [chanA, chanB, chanA] STIM_EVENT envWR).2.2.transport.written
      = [withChecksum (addEventFrame 0 chanA STIM_EVENT),
         withChecksum (addEventFrame 0 chanB STIM_EVENT)] := by
  have h := add_events_spec stimEn [chanA, chanB, chanA] STIM_EVENT envWR rfl
  refine ⟨rfl, ?_, ?_, ?_⟩
  · rw [h.1]; decide
  · rw [h.2.1]; decide
  · rw [h.2.2]; decide

/-- Characterization of the snapshot loop: the non-array fields are
untouched, the array lengths are preserved, and every index below the loop
bound holds the staged amplitude/pulse width of the corresponding channel's
event and the channel's current max values. -/
theorem snapFold_spec (n : Nat) (s : Stimulator) :
    (((List.range n).foldl snapStep s).channels = s.channels) ∧
    (((List.range n).foldl snapStep s).scheduler = s.scheduler) ∧
    (((List.range n).foldl snapStep s).enabled = s.enabled) ∧
    (((List.range n).foldl snapStep s).amplitudes.length =
      s.amplitudes.length) ∧
    (((List.range n).foldl snapStep s).pulsewidths.length =
      s.pulsewidths.length) ∧
    (((List.range n).foldl snapStep s).max_amplitudes.length =
      s.max_amplitudes.length) ∧
    (((List.range n).foldl snapStep s).max_pulsewidths.length =
      s.max_pulsewidths.length) ∧
    (∀ i, i < n →
      (i < s.amplitudes.length →
        ((List.range n).foldl snapStep s).amplitudes[i]? =
          some (s.scheduler.get_amp (s.channels.getD i default))) ∧
      (i < s.pulsewidths.length →
        ((List.range n).foldl snapStep s).pulsewidths[i]? =
          some (s.scheduler.get_pw (s.channels.getD i default))) ∧
      (i < s.max_amplitudes.length →
        ((List.range n).foldl snapStep s).max_amplitudes[i]? =
          some ((s.channels.getD i default).get_max_amplitude)) ∧
      (i < s.max_pulsewidths.length →
        ((List.range n).foldl snapStep s).max_pulsewidths[i]? =
          some ((s.channels.getD i default).get_max_pulse_width))) := by
  induction n with
  | zero =>
    refine ⟨rfl, rfl, rfl, rfl, rfl, rfl, rfl, ?_⟩
    intro i hi
    exact absurd hi (by omega)
  | succ n ihn =>
    obtain ⟨hch, hsch, hsen, hal, hpl, hmal, hmpl, hix⟩ := ihn
    rw [List.range_succ, List.foldl_append]
    simp only [List.foldl_cons, List.foldl_nil]
    refine ⟨hch, hsch, hsen, ?_, ?_, ?_, ?_, ?_⟩
    · simp only [snapStep, List.length_set]
      exact hal
    · simp only [snapStep, List.length_set]
      exact hpl
    · simp only [snapStep, List.length_set]
      exact hmal
    · simp only [snapStep, List.length_set]
      exact hmpl
    · intro i hi
      by_cases hin : i = n
      · subst hin
        refine ⟨?_, ?_, ?_, ?_⟩
        · intro hlen
          simp only [snapStep]
          rw [List.getElem?_set_self (by rw [hal]; exact hlen)]
          rw [hsch, hch]
        · intro hlen
          simp only [snapStep]
          rw [List.getElem?_set_self (by rw [hpl]; exact hlen)]
          rw [hsch, hch]
        · intro hlen
          simp only [snapStep]
          rw [List.getElem?_set_self (by rw [hmal]; exact hlen)]
          rw [hch]
        · intro hlen
          simp only [snapStep]
          rw [List.getElem?_set_self (by rw [hmpl]; exact hlen)]
          rw [hch]
      · have hilt : i < n := by omega
        obtain ⟨h1, h2, h3, h4⟩ := hix i hilt
        refine ⟨?_, ?_, ?_, ?_⟩
        · intro hlen
          simp only [snapStep]
          rw [List.getElem?_set_ne (by omega : n ≠ i)]
          exact h1 hlen
        · intro hlen
          simp only [snapStep]
          rw [List.getElem?_set_ne (by omega : n ≠ i)]
          exact h2 hlen
        · intro hlen
          simp only [snapStep]
          rw [List.getElem?_set_ne (by omega : n ≠ i)]
          exact h3 hlen
        · intro hlen
          simp only [snapStep]
          rw [List.getElem?_set_ne (by omega : n ≠ i)]
          exact h4 hlen

/-- Draining stops, as a normal condition, at the first read that returns
zero bytes, consuming exactly the bytes before it. -/
theorem drainReads_stops_at_timeout (bs : List Nat)
    (rest : List (Option Nat)) :
    drainReads (bs.map some ++ none :: rest) = rest := by
  induction bs with
  | nil => rfl
  | cons b l ih =>
    simp only [List.map_cons, List.cons_append, drainReads]
    exact ih

/-- Draining a stream with no timeout marker consumes every byte and stops
when the transport has nothing left. -/
theorem drainReads_exhausts (bs : List Nat) :
    drainReads (bs.map some) = [] := by
  induction bs with
  | nil => rfl
  | cons b l ih =>
    simp only [List.map_cons, drainReads]
    exact ih

/-- Claim C6: on an enabled stimulator (whose snapshot arrays cover the
scheduler's events), `update` snapshots each event's staged amplitude/pulse
width and each channel's max values into the flat arrays, delegates to
`Scheduler.update`, then drains bytes one at a time until a read returns zero
bytes — a normal termination, not an error — and its boolean result is
exactly `Scheduler.update`'s, unaffected by the drain. -/
theorem update_delegates_and_drains (s : Stimulator) (e : Env)
    (hen : s.enabled = true)
    (hA : s.scheduler.get_num_events ≤ s.amplitudes.length)
    (hP : s.scheduler.get_num_events ≤ s.pulsewidths.length)
    (hMA : s.scheduler.get_num_events ≤ s.max_amplitudes.length)
    (hMP : s.scheduler.get_num_events ≤ s.max_pulsewidths.length) :
    ((s.update e).1 = (s.scheduler.update e).1) ∧
    ((s.update e).2.2 = read_all (s.scheduler.update e).2) ∧
    (∀ (bs : List Nat) (rest : List (Option Nat)),
      (s.scheduler.update e).2.transport.reads =
        bs.map some ++ none :: rest →
      (s.update e).2.2.transport.reads = rest) ∧
    (∀ bs : List Nat, (s.scheduler.update e).2.transport.reads = bs.map some →
      (s.update e).2.2.transport.reads = []) ∧
    ((s.update e).2.1.channels = s.channels) ∧
    ((s.update e).2.1.scheduler = s.scheduler) ∧
    ((s.update e).2.1.enabled = true) ∧
    (∀ i, i < s.scheduler.get_num_events →
      (s.update e).2.1.amplitudes[i]? =
        some (s.scheduler.get_amp (s.channels.getD i default)) ∧
      (s.update e).2.1.pulsewidths[i]? =
        some (s.scheduler.get_pw (s.channels.getD i default)) ∧
      (s.update e).2.1.max_amplitudes[i]? =
        some ((s.channels.getD i default).get_max_amplitude) ∧
      (s.update e).2.1.max_pulsewidths[i]? =
        some ((s.channels.getD i default).get_max_pulse_width)) := by
  have hupd : s.update e =
      ((s.scheduler.update e).1, snapshot s,
       read_all (s.scheduler.update e).2) := by
    unfold Stimulator.update
    rw [if_pos hen]
  rw [hupd]
  obtain ⟨hch, hsch, hsen, hal, hpl, hmal, hmpl, hix⟩ :=
    snapFold_spec s.scheduler.get_num_events s
  refine ⟨rfl, rfl, ?_, ?_, hch, hsch, hsen.trans hen, ?_⟩
  · intro bs rest h
    show (read_all (s.scheduler.update e).2).transport.reads = rest
    unfold read_all
    dsimp only
    rw [h]
    exact drainReads_stops_at_timeout bs rest
  · intro bs h
    show (read_all (s.scheduler.update e).2).transport.reads = []
    unfold read_all
    dsimp only
    rw [h]
    exact drainReads_exhausts bs
  · intro i hi
    obtain ⟨h1, h2, h3, h4⟩ := hix i hi
    exact ⟨h1 (lt_of_lt_of_le hi hA), h2 (lt_of_lt_of_le hi hP),
      h3 (lt_of_lt_of_le hi hMA), h4 (lt_of_lt_of_le hi hMP)⟩

/-- A scheduler holding one registered event with staged amplitude 33 and
pulse width 77. -/
def schedEv : Scheduler := ⟨2, [⟨0, chanA, 33, 77, STIM_EVENT⟩], true, 0x7E⟩

/-- An enabled stimulator carrying `schedEv`. -/
def stimUpd : Stimulator := { stimEn with scheduler := schedEv }

/-- An environment whose transport has two bytes ready, then a timeout, then
one more byte. -/
def envReads : Env :=
  ⟨⟨true, true, [], [], [some 5, some 6, none, some 9], []⟩, true, true, []⟩

/-- Claim C6 witness: the staged amplitude lands in the snapshot array and
the drain consumes exactly the bytes before the first timeout. -/
theorem update_delegates_and_drains_witness :
    (stimUpd.update envReads).2.1.amplitudes[0]? = some 33 ∧
    (stimUpd.update envReads).2.2.transport.reads = [some 9] := by
  have h := update_delegates_and_drains stimUpd envReads rfl (by decide)
    (by decide) (by decide) (by decide)
  constructor
  · have h8 := (h.2.2.2.2.2.2.2 0 (by decide)).1
    rw [h8]
    decide
  · refine h.2.2.1 [5, 6] [some 9] ?_
    decide

end MahiFes
